import Mathlib

/-!
Shallow embedding of `drivers/cpufreq/cpu_input_boost.c` (CPU Input Boost).

The driver keeps one `boost_policy` record per CPU plus a set of module-level
globals.  We embed the per-CPU record as `BoostPolicy`, the globals as
`SysState`, and each C function that the claims touch as a pure Lean function
on these records.  Delayed work items (timers) are embedded as an `armed`
flag plus the millisecond delay they were last queued with; `cancel_delayed_work_sync`
becomes clearing the flag.  `cpufreq_update_policy(cpu)` requests are reported
as booleans/flags where a claim needs them.  C `unsigned int` arithmetic is
on `Nat` (with an explicit `% 2 ^ 32` on the one multiplication that can wrap),
signed time arithmetic on `Int`.
-/

namespace CpuInputBoost

/-- `enum boost_status { UNBOOST, WAITING, BOOST }`. -/
inductive BoostStatus
  | unboost
  | waiting
  | boost
deriving DecidableEq, Repr

/-- `struct boost_policy`: the per-CPU record.  The two `delayed_work` members
are embedded as an armed flag plus the ms delay they were last queued with. -/
structure BoostPolicy where
  ib_restore_armed : Bool
  ib_restore_delay_ms : Nat
  mig_rem_armed : Bool
  mig_rem_delay_ms : Nat
  pending : Bool
  src_cpu : Nat
  boost_state : BoostStatus
  migration_freq : Nat
  task_load : Nat
deriving DecidableEq, Repr

/-- The module-level globals of the driver, plus the per-CPU `boost_info` array
(embedded as a total function from CPU id).  `fb_boost_work` and `boost_work`
are embedded as armed/pending flags. -/
@[ext] structure SysState where
  percpu : Nat → BoostPolicy
  boost_work_pending : Bool
  fb_work_armed : Bool
  fb_work_delay_ms : Nat
  ib_running : Bool
  load_based_syncs : Bool
  suspended : Bool
  fb_boost : BoostStatus
  boost_start_time : Int
  ib_adj_duration_ms : Nat
  ib_duration_ms : Nat
  ib_freq0 : Nat
  ib_freq1 : Nat
  enabled : Nat
  migration_boost_ms : Nat
  migration_load_threshold : Nat
  ib_nr_cpus_boosted : Nat
  ib_nr_cpus_to_boost : Nat

/-- Pointwise update of one CPU's `boost_policy` record. -/
def SysState.updateCpu (s : SysState) (c : Nat) (f : BoostPolicy → BoostPolicy) : SysState :=
  { s with percpu := fun k => if k = c then f (s.percpu k) else s.percpu k }

/-- The fields of `struct cpufreq_policy` the driver reads:
`policy->cpu`, `policy->min`, `policy->max`, `policy->cur` and
`policy->cpuinfo.min_freq`. -/
structure CpuPolicy where
  cpu : Nat
  min : Nat
  max : Nat
  cur : Nat
  cpuinfo_min_freq : Nat
deriving DecidableEq, Repr

/-- `#define FB_BOOST_MS 900`. -/
def FB_BOOST_MS : Nat := 900

/-- A `boost_policy` with every field at its zero-initialised baseline
(the driver's state right after `cpu_ib_init`). -/
def basePolicy : BoostPolicy :=
  { ib_restore_armed := false
    ib_restore_delay_ms := 0
    mig_rem_armed := false
    mig_rem_delay_ms := 0
    pending := false
    src_cpu := 0
    boost_state := BoostStatus.unboost
    migration_freq := 0
    task_load := 0 }

/-- The zero-initialised global state right after module init. -/
def baseState : SysState :=
  { percpu := fun _ => basePolicy
    boost_work_pending := false
    fb_work_armed := false
    fb_work_delay_ms := 0
    ib_running := false
    load_based_syncs := false
    suspended := false
    fb_boost := BoostStatus.unboost
    boost_start_time := 0
    ib_adj_duration_ms := 0
    ib_duration_ms := 0
    ib_freq0 := 0
    ib_freq1 := 0
    enabled := 0
    migration_boost_ms := 0
    migration_load_threshold := 0
    ib_nr_cpus_boosted := 0
    ib_nr_cpus_to_boost := 0 }

/-- `boost_cpu0`: mark CPU0 BOOST, bump `ib_nr_cpus_boosted`, queue the restore
work for `duration_ms`, and record `boost_start_time = now`
(the `cpufreq_update_policy(0)` request is an external governor call). -/
def boost_cpu0 (s : SysState) (duration_ms : Nat) (now : Int) : SysState :=
  let s1 := s.updateCpu 0 (fun b =>
    { b with boost_state := BoostStatus.boost
             ib_restore_armed := true
             ib_restore_delay_ms := duration_ms })
  { s1 with ib_nr_cpus_boosted := s1.ib_nr_cpus_boosted + 1
            boost_start_time := now }

/-- `unboost_all_cpus`: set every CPU's `boost_state` to UNBOOST (requesting a
policy re-evaluation on each online CPU) and clear `ib_running`. -/
def unboost_all_cpus (s : SysState) : SysState :=
  { s with percpu := fun k => { s.percpu k with boost_state := BoostStatus.unboost }
           ib_running := false }

/-- `stop_remove_all_boosts`: synchronously cancel `boost_work`,
`fb_boost_work`, and every CPU's `mig_boost_rem` / `ib_restore_work`, clear
`fb_boost` and every `migration_freq`, then `unboost_all_cpus`. -/
def stop_remove_all_boosts (s : SysState) : SysState :=
  let s1 :=
    { s with boost_work_pending := false
             fb_work_armed := false
             fb_boost := BoostStatus.unboost
             percpu := fun k =>
               { s.percpu k with mig_rem_armed := false
                                 ib_restore_armed := false
                                 migration_freq := 0 } }
  unboost_all_cpus s1

/-- `ib_boost_main`: start of an input-boost cycle.  `num_online` is
`num_online_cpus()`. -/
def ib_boost_main (s : SysState) (num_online : Nat) (now : Int) : SysState :=
  let s1 :=
    { s with ib_nr_cpus_boosted := 0
             ib_nr_cpus_to_boost := if num_online = 1 then 2 else 1
             ib_adj_duration_ms := s.ib_duration_ms * 3 / (3 + num_online) }
  boost_cpu0 s1 (s1.ib_adj_duration_ms + 10) now

/-- `fb_boost_main`: the framebuffer boost work item.  In the BOOST (ACTIVE)
state it re-evaluates every online CPU, moves to WAITING (cooldown) and
re-queues itself after `FB_BOOST_MS`; otherwise it moves to UNBOOST and calls
`unboost_all_cpus`. -/
def fb_boost_main (s : SysState) : SysState :=
  if s.fb_boost = BoostStatus.boost then
    { s with fb_boost := BoostStatus.waiting
             fb_work_armed := true
             fb_work_delay_ms := FB_BOOST_MS }
  else
    unboost_all_cpus { s with fb_boost := BoostStatus.unboost, fb_work_armed := false }

/-- The guard under which `do_cpu_boost`'s previously-offline-CPU admission
block mutates state: fewer CPUs admitted than targeted, a nonzero CPU id, and
a positive remaining duration `ib_adj_duration_ms - (now - boost_start_time)`. -/
def ib_admission_fires (s : SysState) (p : CpuPolicy) (now : Int) : Prop :=
  s.ib_nr_cpus_boosted < s.ib_nr_cpus_to_boost ∧ p.cpu ≠ 0 ∧
    0 < (s.ib_adj_duration_ms : Int) - (now - s.boost_start_time)

instance (s : SysState) (p : CpuPolicy) (now : Int) :
    Decidable (ib_admission_fires s p now) := by
  unfold ib_admission_fires
  infer_instance

/-- `do_cpu_boost` for a `CPUFREQ_ADJUST` event: returns the new `policy->min`
together with the (possibly mutated) global state.  Mirrors the C body:
disabled fast exit, framebuffer-boost override, per-CPU status floor,
previously-offline-CPU admission, and the final thread-migration raise. -/
def do_cpu_boost (s : SysState) (p : CpuPolicy) (now : Int) : Nat × SysState :=
  if s.enabled = 0 ∧ p.min = p.cpuinfo_min_freq then
    (p.min, s)
  else if s.fb_boost ≠ BoostStatus.unboost then
    (p.max, s)
  else
    let b := s.percpu p.cpu
    let min1 : Nat :=
      if b.boost_state = BoostStatus.unboost then p.cpuinfo_min_freq
      else if b.boost_state = BoostStatus.boost then
        Nat.min p.max (if p.cpu = 0 then s.ib_freq0 else s.ib_freq1)
      else p.min
    let step4 : Nat × SysState :=
      if s.ib_nr_cpus_boosted < s.ib_nr_cpus_to_boost ∧ p.cpu ≠ 0 then
        let duration_ms : Int := (s.ib_adj_duration_ms : Int) - (now - s.boost_start_time)
        if 0 < duration_ms then
          (Nat.min p.max s.ib_freq1,
           { s.updateCpu p.cpu (fun bb =>
               { bb with boost_state := BoostStatus.boost
                         ib_restore_armed := true
                         ib_restore_delay_ms := duration_ms.toNat }) with
             ib_nr_cpus_boosted := s.ib_nr_cpus_boosted + 1 })
        else (min1, s)
      else (min1, s)
    let min3 := if step4.1 < b.migration_freq then Nat.min p.max b.migration_freq else step4.1
    (min3, step4.2)

/-- The `struct migration_notify_data` fields the driver reads. -/
structure MigrationNotifyData where
  src_cpu : Nat
  dest_cpu : Nat
  load : Int
deriving DecidableEq, Repr

/-- `boost_migration_notify`: publish a migration request into the destination
CPU's single-slot mailbox (the final `wake_up` of the sync thread is external).
`current_is_sync_thread` models `b->thread == current`.  The C comparison
`mnd->load <= migration_load_threshold` converts the signed load to
`unsigned int` first. -/
def boost_migration_notify (s : SysState) (mnd : MigrationNotifyData)
    (current_is_sync_thread : Bool) : SysState :=
  if s.enabled = 0 ∨ s.migration_boost_ms = 0 then s
  else if s.suspended ∨ s.fb_boost ≠ BoostStatus.unboost then s
  else if s.load_based_syncs ∧ (mnd.load % 2 ^ 32).toNat ≤ s.migration_load_threshold then s
  else if s.load_based_syncs ∧ (mnd.load < 0 ∨ 100 < mnd.load) then s
  else if current_is_sync_thread then s
  else
    s.updateCpu mnd.dest_cpu (fun b =>
      { b with pending := true
               src_cpu := mnd.src_cpu
               task_load := if s.load_based_syncs then (mnd.load % 2 ^ 32).toNat else 0 })

/-- `req_freq = max((dest_policy.max * b->task_load) / 100, src_policy.cur)`;
the multiplication is C `unsigned int` arithmetic, hence the `% 2 ^ 32`. -/
def mig_req_freq (b : BoostPolicy) (sp dp : CpuPolicy) : Nat :=
  Nat.max (dp.max * b.task_load % 2 ^ 32 / 100) sp.cur

/-- Outcome of one `boost_mig_sync_thread` loop iteration: the destination's
updated `boost_policy` record plus whether `cpufreq_update_policy` was
requested on the source and on the destination CPU. -/
structure MigResult where
  b : BoostPolicy
  reeval_src : Bool
  reeval_dest : Bool
deriving DecidableEq, Repr

/-- One iteration of `boost_mig_sync_thread` handling a pending request for
destination record `b0`.  `src_pol` / `dest_pol` are the `cpufreq_get_policy`
results (`none` on failure, which aborts the request), `src_online` /
`dest_online` the `cpu_online` tests at the re-evaluation step. -/
def mig_sync_iter (b0 : BoostPolicy) (migration_boost_ms : Nat)
    (src_pol dest_pol : Option CpuPolicy) (src_online dest_online : Bool) : MigResult :=
  let b := { b0 with pending := false }
  match src_pol, dest_pol with
  | none, _ => ⟨b, false, false⟩
  | some _, none => ⟨b, false, false⟩
  | some sp, some dp =>
    if mig_req_freq b sp dp ≤ dp.cpuinfo_min_freq then
      ⟨b, false, false⟩
    else
      let b1 := { b with mig_rem_armed := false, migration_freq := mig_req_freq b sp dp }
      if dest_online then
        ⟨{ b1 with mig_rem_armed := true, mig_rem_delay_ms := migration_boost_ms },
          src_online, true⟩
      else
        ⟨{ b1 with migration_freq := 0 }, src_online, false⟩

/-- `enabled_write`: `parsed` is the `sscanf(buf, "%u", &data)` outcome
(`none` when it did not parse).  Returns the new state and whether the write
succeeded (`false` is the `-EINVAL` return). -/
def enabled_write (s : SysState) (parsed : Option Nat) : SysState × Bool :=
  match parsed with
  | none => (s, false)
  | some data =>
    let s1 := { s with enabled := data }
    if s1.enabled = 0 then (stop_remove_all_boosts s1, true) else (s1, true)

/-- `ib_freqs_write`: requires both frequencies parsed and nonzero. -/
def ib_freqs_write (s : SysState) (parsed : Option (Nat × Nat)) : SysState × Bool :=
  match parsed with
  | none => (s, false)
  | some fs =>
    if fs.1 = 0 ∨ fs.2 = 0 then (s, false)
    else ({ s with ib_freq0 := fs.1, ib_freq1 := fs.2 }, true)

/-- `ib_duration_ms_write`: requires a parsed, nonzero duration. -/
def ib_duration_ms_write (s : SysState) (parsed : Option Nat) : SysState × Bool :=
  match parsed with
  | none => (s, false)
  | some ms => if ms = 0 then (s, false) else ({ s with ib_duration_ms := ms }, true)

/-- `migration_boost_ms_write`: stores any parsed value (no zero check). -/
def migration_boost_ms_write (s : SysState) (parsed : Option Nat) : SysState × Bool :=
  match parsed with
  | none => (s, false)
  | some data => ({ s with migration_boost_ms := data }, true)

/-- `migration_load_threshold_write`: stores any parsed value (no zero check). -/
def migration_load_threshold_write (s : SysState) (parsed : Option Nat) : SysState × Bool :=
  match parsed with
  | none => (s, false)
  | some data => ({ s with migration_load_threshold := data }, true)

/-! ### Concrete scenario data used by the migration-boost claims.
Frequencies in kHz: 1.2GHz source current, 2.0GHz destination max,
0.3GHz destination hardware minimum; task load 80%, load-gating disabled,
migration-boost duration 40ms. -/

/-- Global state for the spec's migration scenario: feature enabled,
load-gating disabled, `migration_boost_ms = 40`. -/
def migScenState : SysState :=
  { baseState with enabled := 1, migration_boost_ms := 40, load_based_syncs := false }

/-- Source CPU0 policy: currently running at 1.2GHz. -/
def migScenSrc : CpuPolicy :=
  { cpu := 0, min := 300000, max := 2265600, cur := 1200000, cpuinfo_min_freq := 300000 }

/-- Destination CPU2 policy: max 2.0GHz, hardware minimum 0.3GHz. -/
def migScenDest : CpuPolicy :=
  { cpu := 2, min := 300000, max := 2000000, cur := 300000, cpuinfo_min_freq := 300000 }

/-- Deliver the scenario's migration event (CPU0 → CPU2, load 80) with
load-gating disabled, then run the destination worker's iteration. -/
def migScenResult : MigResult :=
  mig_sync_iter
    ((boost_migration_notify migScenState ⟨0, 2, 80⟩ false).percpu 2)
    migScenState.migration_boost_ms (some migScenSrc) (some migScenDest) true true

/-- C1 counterexample: in the spec's scenario (source at 1.2GHz, destination
max 2.0GHz, task load 80%, load-gating disabled) the code sets
`migrationFloorHz` to 1.2GHz, not the claimed 1.6GHz: with load-gating
disabled the notifier records a task load of 0, so the candidate is the
source's current frequency. -/
theorem C1_counterexample :
    migScenResult.b.migration_freq = 1200000 ∧ (1200000 : Nat) ≠ 1600000 := by
  decide

/-- C1 amended: with load-gating disabled the notifier stores task load 0, so
the worker's candidate equals the source's current frequency; in the spec's
scenario the candidate is 1.2GHz, which exceeds the 0.3GHz destination
hardware minimum, so `migrationFloorHz` is set to 1.2GHz and the removal
timer is armed for the configured 40ms migration-boost duration. -/
theorem C1_mig_floor_no_load_gating :
    (∀ (b : BoostPolicy) (sp dp : CpuPolicy), b.task_load = 0 →
       mig_req_freq b sp dp = sp.cur) ∧
    ((boost_migration_notify migScenState ⟨0, 2, 80⟩ false).percpu 2).task_load = 0 ∧
    migScenResult.b.migration_freq = 1200000 ∧
    migScenResult.b.mig_rem_armed = true ∧
    migScenResult.b.mig_rem_delay_ms = 40 := by
  refine ⟨fun b sp dp h => ?_, by decide, by decide, by decide, by decide⟩
  simp [mig_req_freq, h]

/-- Witness for C1: the general task-load-0 part evaluated at the baseline
record and the scenario policies. -/
theorem C1_mig_floor_no_load_gating_witness :
    mig_req_freq basePolicy migScenSrc migScenDest = migScenSrc.cur :=
  C1_mig_floor_no_load_gating.1 basePolicy migScenSrc migScenDest rfl

/-! ### C2: display boost and the underlying per-CPU state. -/

/-- A state in display cooldown (WAITING) with CPU0 input-boosted and an
input cycle still running. -/
def fbCooldownState : SysState :=
  { baseState with
      fb_boost := BoostStatus.waiting
      ib_running := true
      fb_work_armed := true
      percpu := fun k =>
        if k = 0 then
          { basePolicy with boost_state := BoostStatus.boost, ib_restore_armed := true }
        else basePolicy }

/-- C2 counterexample: when the cooldown window expires (`fb_boost_main` fires
in WAITING) the driver calls `unboost_all_cpus`, so CPU0's input-boost status
does NOT keep its prior BOOST value and the input-cycle running flag is
cleared, contradicting the claim that every per-CPU arbitration input still
holds its pre-display-boost value. -/
theorem C2_counterexample :
    (fbCooldownState.percpu 0).boost_state = BoostStatus.boost ∧
    fbCooldownState.ib_running = true ∧
    (fb_boost_main fbCooldownState).fb_boost = BoostStatus.unboost ∧
    ((fb_boost_main fbCooldownState).percpu 0).boost_state = BoostStatus.unboost ∧
    (fb_boost_main fbCooldownState).ib_running = false := by
  decide

/-- C2 amended: while `displayBoost` is ACTIVE or COOLDOWN the adjust path only
overrides the returned floor (the state is untouched), and the ACTIVE firing
of the boost work leaves per-CPU state and the running flag untouched; but the
COOLDOWN-expiry firing that turns `displayBoost` OFF clears every CPU's
input-boost status to UNBOOSTED and clears the input-cycle running flag; only
each CPU's `migrationFloorHz` retains its prior value. -/
theorem C2_display_boost_clears_input_state (s : SysState) :
    (∀ (p : CpuPolicy) (now : Int), s.enabled ≠ 0 → s.fb_boost ≠ BoostStatus.unboost →
       do_cpu_boost s p now = (p.max, s)) ∧
    (s.fb_boost = BoostStatus.boost →
       (fb_boost_main s).percpu = s.percpu ∧
       (fb_boost_main s).ib_running = s.ib_running ∧
       (fb_boost_main s).fb_boost = BoostStatus.waiting) ∧
    (s.fb_boost ≠ BoostStatus.boost →
       (fb_boost_main s).fb_boost = BoostStatus.unboost ∧
       (∀ c, ((fb_boost_main s).percpu c).boost_state = BoostStatus.unboost) ∧
       (∀ c, ((fb_boost_main s).percpu c).migration_freq = (s.percpu c).migration_freq) ∧
       (fb_boost_main s).ib_running = false) := by
  refine ⟨fun p now hen hfb => ?_, fun h => ?_, fun h => ?_⟩
  · simp [do_cpu_boost, hen, hfb]
  · simp [fb_boost_main, h]
  · simp [fb_boost_main, h, unboost_all_cpus]

/-- Witness for C2: the cooldown-expiry clause applied to the concrete
cooldown state. -/
theorem C2_display_boost_clears_input_state_witness :
    ((fb_boost_main fbCooldownState).percpu 0).boost_state = BoostStatus.unboost :=
  ((C2_display_boost_clears_input_state fbCooldownState).2.2 (by decide)).2.1 0

/-! ### C3: the `enabled = false` stop-and-clear operation. -/

/-- A mid-cycle state: input cycle running, CPU0 boosted, one of two targeted
CPUs admitted, adjusted duration 100ms, cycle started at time 0. -/
def midCycleState : SysState :=
  { baseState with
      enabled := 1
      ib_running := true
      ib_nr_cpus_boosted := 1
      ib_nr_cpus_to_boost := 2
      ib_adj_duration_ms := 100
      boost_start_time := 0
      ib_freq0 := 2265600
      ib_freq1 := 1574400
      percpu := fun k =>
        if k = 0 then
          { basePolicy with boost_state := BoostStatus.boost, ib_restore_armed := true }
        else basePolicy }

/-- The state after writing `enabled = 0` in the middle of that cycle. -/
def midCycleDisabled : SysState := (enabled_write midCycleState (some 0)).1

/-- A CPU1 policy whose current min (422.4MHz) is above the 0.3GHz hardware
minimum. -/
def cpu1Policy : CpuPolicy :=
  { cpu := 1, min := 422400, max := 2265600, cur := 422400, cpuinfo_min_freq := 300000 }

/-- C3 counterexample: writing `enabled = 0` mid-cycle leaves the global
admitted-count bookkeeping at 1 (not its baseline 0), and a subsequent policy
evaluation of CPU1 at time 50 (still inside the leftover admission window)
returns a 1.5744GHz floor instead of the 0.3GHz hardware minimum — so
stop-and-clear neither resets every global field nor reverts every CPU's
floor to the hardware minimum. -/
theorem C3_counterexample :
    midCycleDisabled.ib_nr_cpus_boosted = 1 ∧ (1 : Nat) ≠ 0 ∧
    (do_cpu_boost midCycleDisabled cpu1Policy 50).1 = 1574400 ∧
    cpu1Policy.cpuinfo_min_freq = 300000 ∧ (1574400 : Nat) ≠ 300000 := by
  decide

/-- C3 amended: stop-and-clear synchronously cancels every armed timer (input
work, per-CPU restore and migration-removal, display cooldown), sets
`displayBoost` OFF, every status UNBOOSTED, every `migrationFloorHz` to 0,
and clears the input-cycle running flag, and it is idempotent; however it does
not reset the cycle bookkeeping (admitted count, target count, adjusted
duration, start time) or the migration mailbox fields, so a CPU's floor
reverts to the hardware minimum only in evaluations where the leftover
admission window does not fire (CPU0 always; other CPUs once the count is
full or the window has elapsed). -/
theorem C3_stop_and_clear (s : SysState) :
    (∀ c, ((stop_remove_all_boosts s).percpu c).boost_state = BoostStatus.unboost ∧
          ((stop_remove_all_boosts s).percpu c).migration_freq = 0 ∧
          ((stop_remove_all_boosts s).percpu c).ib_restore_armed = false ∧
          ((stop_remove_all_boosts s).percpu c).mig_rem_armed = false) ∧
    (stop_remove_all_boosts s).fb_boost = BoostStatus.unboost ∧
    (stop_remove_all_boosts s).fb_work_armed = false ∧
    (stop_remove_all_boosts s).boost_work_pending = false ∧
    (stop_remove_all_boosts s).ib_running = false ∧
    stop_remove_all_boosts (stop_remove_all_boosts s) = stop_remove_all_boosts s ∧
    (∀ (p : CpuPolicy) (now : Int),
       ¬ ib_admission_fires (stop_remove_all_boosts s) p now →
       p.min = p.cpuinfo_min_freq ∨
         (do_cpu_boost (stop_remove_all_boosts s) p now).1 = p.cpuinfo_min_freq) := by
  refine ⟨fun c => by simp [stop_remove_all_boosts, unboost_all_cpus],
          by simp [stop_remove_all_boosts, unboost_all_cpus],
          by simp [stop_remove_all_boosts, unboost_all_cpus],
          by simp [stop_remove_all_boosts, unboost_all_cpus],
          by simp [stop_remove_all_boosts, unboost_all_cpus],
          ?_, fun p now hna => ?_⟩
  · ext c <;> simp [stop_remove_all_boosts, unboost_all_cpus]
  · by_cases hmin : p.min = p.cpuinfo_min_freq
    · exact Or.inl hmin
    · refine Or.inr ?_
      rw [do_cpu_boost]
      simp only [stop_remove_all_boosts, unboost_all_cpus, ib_admission_fires,
        not_and, not_lt] at hna ⊢
      split
      · next h => exact absurd h.2 hmin
      · split
        · next h => simp at h
        · by_cases hguard : s.ib_nr_cpus_boosted < s.ib_nr_cpus_to_boost ∧ p.cpu ≠ 0
          · have hdur := hna hguard.1 hguard.2
            simp [hguard, hdur, not_lt.mpr hdur]
          · simp [hguard]

/-- Witness for C3: the floor-reversion clause applied to the disabled
mid-cycle state for CPU0 (where admission can never fire), at the hardware
minimum. -/
theorem C3_stop_and_clear_witness :
    cpu1Policy.min = cpu1Policy.cpuinfo_min_freq ∨
      (do_cpu_boost (stop_remove_all_boosts midCycleState) cpu1Policy 200).1 =
        cpu1Policy.cpuinfo_min_freq :=
  (C3_stop_and_clear midCycleState).2.2.2.2.2.2 cpu1Policy 200 (by decide)

/-! ### C4: the admission side-effect of the Arbitrator. -/

/-- A disabled state with a half-finished admission cycle: `enabled = 0`,
one of two targeted CPUs admitted, 100ms adjusted duration, cycle start at 0. -/
def disabledMidCycle : SysState :=
  { baseState with
      enabled := 0
      ib_nr_cpus_boosted := 1
      ib_nr_cpus_to_boost := 2
      ib_adj_duration_ms := 100
      boost_start_time := 0
      ib_freq0 := 2265600
      ib_freq1 := 1574400 }

/-- C4 counterexample: with `enabled = 0` (but CPU1's current min above the
hardware minimum, so the fast exit does not apply) the admission side-effect
still fires at time 10: CPU1 is marked BOOSTED, the admitted count is
incremented and a restore timer is armed — refuting "only while enabled is
true". -/
theorem C4_counterexample :
    disabledMidCycle.enabled = 0 ∧
    ((do_cpu_boost disabledMidCycle cpu1Policy 10).2.percpu 1).boost_state =
      BoostStatus.boost ∧
    (do_cpu_boost disabledMidCycle cpu1Policy 10).2.ib_nr_cpus_boosted = 2 ∧
    ((do_cpu_boost disabledMidCycle cpu1Policy 10).2.percpu 1).ib_restore_armed = true ∧
    (do_cpu_boost disabledMidCycle cpu1Policy 10).1 = 1574400 := by
  decide

/-- C4 amended: the admission side-effect runs only for CPU ids other than 0
and only when neither the disabled fast exit (`enabled` false with the current
min already at the hardware minimum) nor the display-boost override applies —
not "only while enabled is true"; under those conditions it fires exactly when
the admitted count is below `nrCpusToBoost` and the elapsed time since cycle
start is within the adjusted duration; when it fires it marks the CPU BOOSTED,
raises the floor to min(max, other-CPU input frequency) (unless an even larger
migration floor raises it further), increments the admitted count and arms a
restore timer for the remaining portion of the duration; when it does not fire
the state is unmutated; and under the cycle invariants (count ≥ 1, target ≤ 2)
no admission can fire again after one fires, so no CPU is admitted twice in
one cycle. -/
theorem C4_admission (s : SysState) (p : CpuPolicy) (now : Int)
    (hfe : ¬ (s.enabled = 0 ∧ p.min = p.cpuinfo_min_freq))
    (hfb : s.fb_boost = BoostStatus.unboost) :
    (ib_admission_fires s p now ↔
       s.ib_nr_cpus_boosted < s.ib_nr_cpus_to_boost ∧ p.cpu ≠ 0 ∧
         0 < (s.ib_adj_duration_ms : Int) - (now - s.boost_start_time)) ∧
    (¬ ib_admission_fires s p now → (do_cpu_boost s p now).2 = s) ∧
    (ib_admission_fires s p now →
       ((do_cpu_boost s p now).2.percpu p.cpu).boost_state = BoostStatus.boost ∧
       (do_cpu_boost s p now).2.ib_nr_cpus_boosted = s.ib_nr_cpus_boosted + 1 ∧
       ((do_cpu_boost s p now).2.percpu p.cpu).ib_restore_armed = true ∧
       ((do_cpu_boost s p now).2.percpu p.cpu).ib_restore_delay_ms =
         ((s.ib_adj_duration_ms : Int) - (now - s.boost_start_time)).toNat ∧
       ((s.percpu p.cpu).migration_freq ≤ Nat.min p.max s.ib_freq1 →
          (do_cpu_boost s p now).1 = Nat.min p.max s.ib_freq1)) ∧
    (ib_admission_fires s p now → 1 ≤ s.ib_nr_cpus_boosted → s.ib_nr_cpus_to_boost ≤ 2 →
       ∀ (p2 : CpuPolicy) (now2 : Int),
         ¬ ib_admission_fires (do_cpu_boost s p now).2 p2 now2) := by
  refine ⟨Iff.rfl, fun hno => ?_, fun hyes => ?_, fun hyes h1 h2 p2 now2 => ?_⟩
  · rw [do_cpu_boost]
    simp only [ib_admission_fires, not_and, not_lt] at hno
    split
    · rfl
    · split
      · next h => exact absurd hfb (by simpa using h)
      · by_cases hguard : s.ib_nr_cpus_boosted < s.ib_nr_cpus_to_boost ∧ p.cpu ≠ 0
        · have hdur := hno hguard.1 hguard.2
          simp [hguard, not_lt.mpr hdur]
        · simp [hguard]
  · obtain ⟨hlt, hc, hdur⟩ := hyes
    rw [do_cpu_boost]
    simp [hfe, hfb, hlt, hc, hdur, SysState.updateCpu]
    intro hmig
    omega
  · obtain ⟨hlt, hc, hdur⟩ := hyes
    rw [do_cpu_boost]
    simp only [ib_admission_fires, hfe, if_false]
    simp [hfe, hfb, hlt, hc, hdur, SysState.updateCpu]
    omega

/-- Witness for C4: the firing clause applied to the disabled mid-cycle state
at time 10. -/
theorem C4_admission_witness :
    ((do_cpu_boost disabledMidCycle cpu1Policy 10).2.percpu 1).boost_state =
      BoostStatus.boost :=
  ((C4_admission disabledMidCycle cpu1Policy 10 (by decide) (by decide)).2.2.1
    (by decide)).1

/-! ### C5: validation of numeric tunable writes. -/

/-- C5 counterexample: writing the parsed value 0 to `migration_boost_ms`
succeeds and overwrites the previously stored 40 — zero is not rejected and
the tunable is mutated. -/
theorem C5_counterexample :
    (migration_boost_ms_write { baseState with migration_boost_ms := 40 } (some 0)).2
      = true ∧
    (migration_boost_ms_write { baseState with migration_boost_ms := 40 }
      (some 0)).1.migration_boost_ms = 0 ∧ (0 : Nat) ≠ 40 := by
  decide

/-- C5 amended: `ib_freqs` and `ib_duration_ms` writes validate positive
integers — zero or unparseable input is rejected with a local failure and no
state change — but `migration_boost_ms` and `migration_load_threshold` writes
reject only unparseable input (without mutating state) and accept zero,
storing it. -/
theorem C5_tunable_validation (s : SysState) :
    ib_freqs_write s none = (s, false) ∧
    (∀ f0 f1 : Nat, f0 = 0 ∨ f1 = 0 → ib_freqs_write s (some (f0, f1)) = (s, false)) ∧
    (∀ f0 f1 : Nat, f0 ≠ 0 → f1 ≠ 0 →
       ib_freqs_write s (some (f0, f1)) =
         ({ s with ib_freq0 := f0, ib_freq1 := f1 }, true)) ∧
    ib_duration_ms_write s none = (s, false) ∧
    ib_duration_ms_write s (some 0) = (s, false) ∧
    (∀ ms : Nat, ms ≠ 0 →
       ib_duration_ms_write s (some ms) = ({ s with ib_duration_ms := ms }, true)) ∧
    migration_boost_ms_write s none = (s, false) ∧
    (∀ d : Nat, migration_boost_ms_write s (some d) =
       ({ s with migration_boost_ms := d }, true)) ∧
    migration_load_threshold_write s none = (s, false) ∧
    (∀ d : Nat, migration_load_threshold_write s (some d) =
       ({ s with migration_load_threshold := d }, true)) := by
  refine ⟨rfl, fun f0 f1 h => ?_, fun f0 f1 h0 h1 => ?_, rfl, rfl, fun ms h => ?_,
          rfl, fun d => rfl, rfl, fun d => rfl⟩
  · simp [ib_freqs_write, h]
  · simp [ib_freqs_write, h0, h1]
  · simp [ib_duration_ms_write, h]

/-- Witness for C5: the zero-rejection clause of `ib_freqs` at a concrete
input. -/
theorem C5_tunable_validation_witness :
    ib_freqs_write baseState (some (0, 1574400)) = (baseState, false) :=
  (C5_tunable_validation baseState).2.1 0 1574400 (Or.inl rfl)

/-! ### C6: display boost overrides the floor unconditionally. -/

/-- C6: while the feature is enabled and `displayBoost` is ACTIVE or COOLDOWN
(`fb_boost ≠ UNBOOST`), the adjust path returns the policy maximum as the
floor for every CPU and every per-CPU state — any `status` value, any
`migrationFloorHz` — ignoring the per-CPU inputs entirely. -/
theorem C6_display_boost_overrides (s : SysState) (p : CpuPolicy) (now : Int)
    (hen : s.enabled ≠ 0) (hfb : s.fb_boost ≠ BoostStatus.unboost) :
    (do_cpu_boost s p now).1 = p.max := by
  simp [do_cpu_boost, hen, hfb]

/-- Witness for C6: a display-boosting state whose CPU1 is simultaneously
input-boosted and migration-boosted still yields the maximum as the floor. -/
theorem C6_display_boost_overrides_witness :
    (do_cpu_boost
      { midCycleState with
          fb_boost := BoostStatus.boost
          percpu := fun _ =>
            { basePolicy with boost_state := BoostStatus.boost, migration_freq := 2400000 } }
      cpu1Policy 10).1 = cpu1Policy.max :=
  C6_display_boost_overrides _ cpu1Policy 10 (by decide) (by decide)

/-! ### C7: input-boost cycle start. -/

/-- C7: at cycle start the worker targets two CPUs when exactly one CPU is
online and one CPU when more are online, computes the adjusted duration as
`configured * 3 / (3 + onlineCpuCount)` in integer arithmetic for every
online count, and immediately boosts CPU0 — marking it BOOSTED, counting it
as the first admitted CPU, recording the cycle start time, and arming its
restore timer for the adjusted duration plus the fixed 10ms grace period. -/
theorem C7_cycle_start (s : SysState) (n : Nat) (now : Int) :
    (n = 1 → (ib_boost_main s n now).ib_nr_cpus_to_boost = 2) ∧
    (1 < n → (ib_boost_main s n now).ib_nr_cpus_to_boost = 1) ∧
    (ib_boost_main s n now).ib_adj_duration_ms = s.ib_duration_ms * 3 / (3 + n) ∧
    ((ib_boost_main s n now).percpu 0).boost_state = BoostStatus.boost ∧
    ((ib_boost_main s n now).percpu 0).ib_restore_armed = true ∧
    ((ib_boost_main s n now).percpu 0).ib_restore_delay_ms =
      s.ib_duration_ms * 3 / (3 + n) + 10 ∧
    (ib_boost_main s n now).ib_nr_cpus_boosted = 1 ∧
    (ib_boost_main s n now).boost_start_time = now := by
  refine ⟨fun h1 => ?_, fun hgt => ?_, ?_, ?_, ?_, ?_, ?_, ?_⟩ <;>
    simp [ib_boost_main, boost_cpu0, SysState.updateCpu]
  · simp [h1]
  · omega

/-- Witness for C7: the claim's onlineCount instances 1, 2, 4 and 8 with a
300ms configured duration — targets and adjusted durations 225, 180, 128
and 81ms. -/
theorem C7_cycle_start_witness :
    (ib_boost_main { baseState with ib_duration_ms := 300 } 1 5).ib_nr_cpus_to_boost = 2 ∧
    (ib_boost_main { baseState with ib_duration_ms := 300 } 2 5).ib_nr_cpus_to_boost = 1 ∧
    (ib_boost_main { baseState with ib_duration_ms := 300 } 1 5).ib_adj_duration_ms = 225 ∧
    (ib_boost_main { baseState with ib_duration_ms := 300 } 2 5).ib_adj_duration_ms = 180 ∧
    (ib_boost_main { baseState with ib_duration_ms := 300 } 4 5).ib_adj_duration_ms = 128 ∧
    (ib_boost_main { baseState with ib_duration_ms := 300 } 8 5).ib_adj_duration_ms = 81 ∧
    ((ib_boost_main { baseState with ib_duration_ms := 300 } 4 5).percpu 0).ib_restore_delay_ms
      = 138 := by
  refine ⟨(C7_cycle_start { baseState with ib_duration_ms := 300 } 1 5).1 rfl,
          (C7_cycle_start { baseState with ib_duration_ms := 300 } 2 5).2.1 (by decide),
          ?_, ?_, ?_, ?_, ?_⟩
  · have h := (C7_cycle_start { baseState with ib_duration_ms := 300 } 1 5).2.2.1
    simpa using h
  · have h := (C7_cycle_start { baseState with ib_duration_ms := 300 } 2 5).2.2.1
    simpa using h
  · have h := (C7_cycle_start { baseState with ib_duration_ms := 300 } 4 5).2.2.1
    simpa using h
  · have h := (C7_cycle_start { baseState with ib_duration_ms := 300 } 8 5).2.2.1
    simpa using h
  · have h := (C7_cycle_start { baseState with ib_duration_ms := 300 } 4 5).2.2.2.2.2.1
    simpa using h

/-! ### C8 / C9: the migration sync worker's apply/discard decisions. -/

/-- C8: when the computed candidate `max(dest.max * taskLoad / 100, src.cur)`
does not exceed the destination's hardware minimum, the worker discards the
request: beyond consuming the mailbox's pending flag, `migrationFloorHz` is
unchanged, the removal timer is untouched, and no policy re-evaluation is
requested for either CPU. -/
theorem C8_discard_low_candidate (b : BoostPolicy) (mbms : Nat) (sp dp : CpuPolicy)
    (so don : Bool)
    (h : mig_req_freq { b with pending := false } sp dp ≤ dp.cpuinfo_min_freq) :
    mig_sync_iter b mbms (some sp) (some dp) so don =
      ⟨{ b with pending := false }, false, false⟩ := by
  simp [mig_sync_iter, h]

/-- Witness for C8: a request whose candidate (422.4MHz, from a 20% load on a
2GHz max and a 422.4MHz source) is below the 0.5GHz destination minimum is
discarded. -/
theorem C8_discard_low_candidate_witness :
    mig_sync_iter { basePolicy with pending := true, task_load := 20 } 40
      (some cpu1Policy)
      (some { cpu := 2, min := 500000, max := 2000000, cur := 500000,
              cpuinfo_min_freq := 500000 }) true true =
      ⟨{ basePolicy with pending := false, task_load := 20 }, false, false⟩ :=
  C8_discard_low_candidate { basePolicy with pending := true, task_load := 20 } 40
    cpu1Policy
    { cpu := 2, min := 500000, max := 2000000, cur := 500000, cpuinfo_min_freq := 500000 }
    true true (by decide)

/-- C9: when the candidate exceeds the destination's hardware minimum but the
destination CPU is offline at the apply step, the request ends with the
destination's `migrationFloorHz` equal to zero and no removal timer armed
(an offline CPU is never left boosted), while a policy re-evaluation of the
source CPU is still requested exactly when the source is online. -/
theorem C9_offline_destination (b : BoostPolicy) (mbms : Nat) (sp dp : CpuPolicy)
    (so : Bool)
    (h : dp.cpuinfo_min_freq < mig_req_freq { b with pending := false } sp dp) :
    (mig_sync_iter b mbms (some sp) (some dp) so false).b.migration_freq = 0 ∧
    (mig_sync_iter b mbms (some sp) (some dp) so false).b.mig_rem_armed = false ∧
    (mig_sync_iter b mbms (some sp) (some dp) so false).reeval_dest = false ∧
    (mig_sync_iter b mbms (some sp) (some dp) so false).reeval_src = so := by
  simp [mig_sync_iter, not_le.mpr h]

/-- Witness for C9: the spec scenario's request redirected to an offline
destination ends unboosted with its removal timer unarmed, yet the online
source still gets a re-evaluation. -/
theorem C9_offline_destination_witness :
    (mig_sync_iter { basePolicy with pending := true } 40 (some migScenSrc)
       (some migScenDest) true false).b.migration_freq = 0 ∧
    (mig_sync_iter { basePolicy with pending := true } 40 (some migScenSrc)
       (some migScenDest) true false).b.mig_rem_armed = false ∧
    (mig_sync_iter { basePolicy with pending := true } 40 (some migScenSrc)
       (some migScenDest) true false).reeval_dest = false ∧
    (mig_sync_iter { basePolicy with pending := true } 40 (some migScenSrc)
       (some migScenDest) true false).reeval_src = true :=
  C9_offline_destination { basePolicy with pending := true } 40 migScenSrc migScenDest
    true (by decide)

/-! ### C10: the disabled fast exit and what still runs when it is skipped. -/

/-- A disabled baseline with the input frequencies configured (used to show
leftover state can still raise the floor while disabled). -/
def disabledState : SysState :=
  { baseState with enabled := 0, ib_freq0 := 2265600, ib_freq1 := 1574400 }

/-- C10: the disabled fast exit fires only when `enabled` is false AND the
caller's current min equals the hardware minimum (returning the min unchanged
without touching state); when `enabled` is false but the min is above the
hardware minimum the full arbitration path runs — with UNBOOSTED status, no
migration floor, display boost off and no open admission window it lowers the
floor back to the hardware minimum, but a leftover display-boost flag, a
leftover BOOSTED status, a leftover migration floor, or an unfinished
admission cycle each still raise the floor above the hardware minimum even
though the feature is disabled. -/
theorem C10_disabled_path (s : SysState) (p : CpuPolicy) (now : Int) :
    (s.enabled = 0 → p.min = p.cpuinfo_min_freq → do_cpu_boost s p now = (p.min, s)) ∧
    (s.enabled = 0 → p.min ≠ p.cpuinfo_min_freq → s.fb_boost = BoostStatus.unboost →
       (s.percpu p.cpu).boost_state = BoostStatus.unboost →
       (s.percpu p.cpu).migration_freq = 0 →
       ¬ ib_admission_fires s p now →
       (do_cpu_boost s p now).1 = p.cpuinfo_min_freq) ∧
    (do_cpu_boost { disabledState with fb_boost := BoostStatus.waiting }
       cpu1Policy 0).1 = 2265600 ∧
    (do_cpu_boost
       (disabledState.updateCpu 1 (fun b => { b with boost_state := BoostStatus.boost }))
       cpu1Policy 0).1 = 1574400 ∧
    (do_cpu_boost
       (disabledState.updateCpu 1 (fun b => { b with migration_freq := 900000 }))
       cpu1Policy 0).1 = 900000 ∧
    (do_cpu_boost
       { disabledState with ib_nr_cpus_boosted := 1, ib_nr_cpus_to_boost := 2,
                            ib_adj_duration_ms := 100, boost_start_time := 0 }
       cpu1Policy 10).1 = 1574400 ∧
    cpu1Policy.cpuinfo_min_freq = 300000 := by
  refine ⟨fun he hm => ?_, fun he hm hfb hbs hmf hna => ?_,
          by decide, by decide, by decide, by decide, by decide⟩
  · simp [do_cpu_boost, he, hm]
  · rw [do_cpu_boost]
    simp only [ib_admission_fires, not_and, not_lt] at hna
    split
    · next hfast => exact absurd hfast.2 hm
    · split
      · next h => exact absurd hfb (by simpa using h)
      · by_cases hguard : s.ib_nr_cpus_boosted < s.ib_nr_cpus_to_boost ∧ p.cpu ≠ 0
        · have hdur := hna hguard.1 hguard.2
          simp [hguard, not_lt.mpr hdur, hbs, hmf]
        · simp [hguard, hbs, hmf]

/-- Witness for C10: the fast-exit clause at a concrete disabled state whose
caller is already at the hardware minimum. -/
theorem C10_disabled_path_witness :
    do_cpu_boost disabledState migScenDest 0 = (migScenDest.min, disabledState) :=
  (C10_disabled_path disabledState migScenDest 0).1 rfl rfl

end CpuInputBoost
